import Mathlib

/-!
Verification of the OS-enumeration and stub-install modules (`osenum.py`,
`stub.py`) of the asahi-installer repository, as a shallow embedding in
Lean 4.  External effects (mounts, file reads, the `bputil` invocation) are
supplied through an explicit environment of oracle functions, and
Python exceptions are modelled with `Except`.
-/

namespace AsahiInstaller

/-- `os.path.join` for relative components: joins with "/". -/
def pathJoin (pieces : List String) : String :=
  String.intercalate "/" pieces

/-- Python `str.rstrip(chars)`: removes all trailing characters belonging to
the character SET given by `chars` (not the literal suffix). -/
def pyRstrip (s chars : String) : String :=
  String.mk ((s.data.reverse.dropWhile (fun c => chars.data.contains c)).reverse)

/-- Python `a or b` for an optional string `a`: `None` and the empty string
are falsy, so both fall back to the default. -/
def pyOr : Option String → String → String
  | none, d => d
  | some s, d => if s = "" then d else s

/-- Uppercase hexadecimal digit for a value below 16. -/
def hexDigit (n : Nat) : Char :=
  if n < 10 then Char.ofNat (48 + n) else Char.ofNat (55 + n)

/-- Fuel-driven accumulation of uppercase hex digits (most significant first). -/
def hexCharsAux : Nat → Nat → List Char → List Char
  | 0, _, acc => acc
  | _ + 1, 0, acc => acc
  | fuel + 1, n, acc => hexCharsAux fuel (n / 16) (hexDigit (n % 16) :: acc)

/-- Uppercase hex digits of `n` (empty for 0). -/
def hexChars (n : Nat) : List Char :=
  hexCharsAux (n + 1) n []

/-- Python `f'0x\x7bn:0wX\x7d'`: "0x" followed by `n` in uppercase hex,
zero-padded on the left to at least `width` digits. -/
def pyHex (width n : Nat) : String :=
  let ds := hexChars n
  "0x" ++ String.mk (List.replicate (width - ds.length) '0' ++ ds)

/-- Turn an `Option` into an `Except`, raising `e` on `none`
(models a Python `KeyError` on a missing dict key). -/
def exceptOfOption (e : String) : Option α → Except String α
  | none => Except.error e
  | some a => Except.ok a

/-- Fuel-driven worker for `pySplit`: scans left to right, cutting at each
non-overlapping occurrence of `sep`.  `cur` accumulates the current chunk
in reverse. -/
def pySplitAux (sep : List Char) : Nat → List Char → List Char → List (List Char)
  | 0, cur, s => [cur.reverse ++ s]
  | fuel + 1, cur, s =>
    match s with
    | [] => [cur.reverse]
    | c :: rest =>
      if sep.isPrefixOf s then
        cur.reverse :: pySplitAux sep fuel [] (s.drop sep.length)
      else
        pySplitAux sep fuel (c :: cur) rest

/-- Python `s.split(sep)` for a non-empty separator: the chunks between
consecutive non-overlapping occurrences of `sep`, scanned left to right. -/
def pySplit (s sep : String) : List String :=
  (pySplitAux sep.data (s.data.length + 1) [] s.data).map String.mk

/-! ## Data model: containers, volumes, volume groups (`diskutil` view) -/

/-- One APFS volume as reported in `container["Volumes"]`. -/
structure Volume where
  deviceIdentifier : String
  roles : List String
  name : String
  apfsVolumeUUID : String
  deriving DecidableEq, Repr, Inhabited

/-- One member entry of a `VolumeGroups` record (`Role`, `DeviceIdentifier`). -/
structure VGMember where
  role : String
  deviceIdentifier : String
  deriving DecidableEq, Repr, Inhabited

/-- One entry of `container["VolumeGroups"]`. -/
structure VolumeGroup where
  volumes : List VGMember
  apfsVolumeGroupUUID : String
  deriving DecidableEq, Repr, Inhabited

/-- An APFS container: its volume list and volume-group list. -/
structure Container where
  volumes : List Volume
  volumeGroups : List VolumeGroup
  deriving DecidableEq, Repr, Inhabited

/-! ## Python dict keyed by heterogeneous keys

`prepare_volume` builds `by_role` keyed by tuples of role strings, but its
duplicate-role check looks the roles up with plain string keys.  In Python a
`str` never compares equal to a `tuple`, so the embedding keeps both key
shapes in one type with decidable equality that mirrors Python `==`. -/

/-- A Python dict key that is either a `str` or a tuple of `str`. -/
inductive PyKey where
  | str (s : String)
  | tup (l : List String)
  deriving DecidableEq, Repr

instance : BEq PyKey := instBEqOfDecidableEq

/-- `d.setdefault(k, []).append(v)` on an insertion-ordered dict. -/
def dictAppend (d : List (PyKey × List Volume)) (k : PyKey) (v : Volume) :
    List (PyKey × List Volume) :=
  match d with
  | [] => [(k, [v])]
  | (k', vs) :: rest =>
    if k' = k then (k', vs ++ [v]) :: rest else (k', vs) :: dictAppend rest k v

/-- `d.get(k, [])` on an insertion-ordered dict. -/
def dictGet (d : List (PyKey × List Volume)) (k : PyKey) : List Volume :=
  match d.find? (fun kv => kv.1 == k) with
  | none => []
  | some kv => kv.2

/-- The `by_role` dict built by `StubInstaller.prepare_volume`: each volume is
filed under the tuple of its `Roles`. -/
def buildByRole (vols : List Volume) : List (PyKey × List Volume) :=
  vols.foldl (fun d v => dictAppend d (PyKey.tup v.roles) v) []

/-! ## `StubInstaller.prepare_volume` (stub.py lines 32-62)

We embed the phase of `prepare_volume` that the claims are about: the
duplicate-role check over `by_role` and the derivation of the install label.
The `diskutil` side effects that follow only depend on the label computed
here.  The duplicate check is transcribed exactly as written in the source:
`vols = by_role.get(role, [])` with `role` a plain string, while the dict is
keyed by role tuples. -/

/-- `prepare_volume` through its label derivation: runs the duplicate-role
check loop (unrolled over its four role names, each raising
`Multiple <role> volumes` when the string-keyed lookup yields more than one
volume), computes `label = part.label or "Linux"`, and if a
`("Data",)`-roled volume already exists, strips `" - Data"` from the label
with `str.rstrip`; returns the resulting install label. -/
def prepare_volume_label (partLabel : Option String) (ct : Container) :
    Except String String :=
  let by_role := buildByRole ct.volumes
  if (dictGet by_role (PyKey.str "Preboot")).length > 1 then
    Except.error "Multiple Preboot volumes"
  else if (dictGet by_role (PyKey.str "Recovery")).length > 1 then
    Except.error "Multiple Recovery volumes"
  else if (dictGet by_role (PyKey.str "Data")).length > 1 then
    Except.error "Multiple Data volumes"
  else if (dictGet by_role (PyKey.str "System")).length > 1 then
    Except.error "Multiple System volumes"
  else
    let label := pyOr partLabel "Linux"
    if (dictGet by_role (PyKey.tup ["Data"])).isEmpty then
      Except.ok label
    else
      Except.ok (pyRstrip label " - Data")

/-! ## `StubInstaller.install_files` build-identity selection (stub.py 115-124) -/

/-- Device identity data from the system-info collaborator. -/
structure SysInfo where
  board_id : Nat
  chip_id : Nat
  device_class : String
  deriving DecidableEq, Repr

/-- One entry of `manifest["BuildIdentities"]` (the fields the selection
loop consults, plus the build number used by the log line). -/
structure BuildIdentity where
  apBoardID : String
  apChipID : String
  deviceClass : String
  restoreBehavior : String
  variant : String
  buildNumber : String
  deriving DecidableEq, Repr

/-- The per-identity filter of the selection loop in `install_files`: the
loop `continue`s unless all five equalities hold. -/
def identityMatches (si : SysInfo) (idt : BuildIdentity) : Bool :=
  idt.apBoardID == pyHex 2 si.board_id &&
  idt.apChipID == pyHex 4 si.chip_id &&
  idt.deviceClass == si.device_class &&
  idt.restoreBehavior == "Erase" &&
  idt.variant == "macOS Customer"

/-- The `for ... break / else raise` selection in `install_files`: the first
identity passing `identityMatches`, or `none` — in which case the code
raises `Failed to locate a usable build identity for this device`. -/
def install_files_identity (si : SysInfo) (ids : List BuildIdentity) :
    Option BuildIdentity :=
  ids.find? (identityMatches si)

/-! ## `OSEnum` (osenum.py): environment, OS records, boot-policy parsing -/

/-- Oracle environment for the external effects `OSEnum` performs.
`mount` models `dutil.mount` (raising on failure); `pathExists` models
`os.path.exists`; `sysverFile` returns the `ProductVersion` of a readable
`SystemVersion` plist at the given path, `none` meaning the
`FileNotFoundError` the loop catches; `bputil` models the `bputil`
invocation (`Except.error` is a `CalledProcessError`); `readFile` models
`open(path, "rb").read()` with `none` meaning `FileNotFoundError`. -/
structure OSEnv where
  mount : String → Except String String
  pathExists : String → Bool
  sysverFile : String → Option String
  bputil : String → Except Unit String
  readFile : String → Option String

/-- The boot-policy map `osi.bp` built by `collect_os`: for each of the two
tags, the outer `Option` is key presence in the dict and the inner `Option`
is the stored value (`none` when the text value was the literal `absent`). -/
structure BootPolicy where
  coih : Option (Option String)
  nsih : Option (Option String)
  deriving DecidableEq, Repr

/-- A resolved `OSInfo` record (the fields `collect_os` fills in). -/
structure OSRec where
  partition : String
  vgid : String
  label : String
  sysVolume : String
  stub : Bool
  version : Option String
  m1n1Ver : Option String
  system : String
  data : Option String
  preboot : String
  recovery : String
  recVgid : String
  bp : Option BootPolicy
  deriving DecidableEq, Repr

/-- A partition as seen by `OSEnum`: name, optional container, and its
current OS list (left untouched when the container is absent). -/
structure Partition where
  name : String
  container : Option Container
  os : List OSRec
  deriving DecidableEq, Repr

/-- The volumes dict assembled by `collect_part` before calling
`collect_os`: the unique Preboot and Recovery volumes plus the group's
System and Data volumes. -/
structure RoleVolumes where
  preboot : Volume
  recovery : Volume
  system : Volume
  data : Volume
  deriving DecidableEq, Repr

/-- Parse one boot-policy tag out of the `bputil` output: if `"(k): "`
occurs in the text, the value is the text after its first occurrence up to
the next line break, with the literal `absent` mapped to `none`; a missing
tag yields `none` (key omitted from the dict). -/
def parseBPTag (k : String) (bps : String) : Option (Option String) :=
  let tag := "(" ++ k ++ "): "
  let chunks := pySplit bps tag
  if chunks.length ≥ 2 then
    let val := (pySplit (chunks.getD 1 "") "\n").headD ""
    some (if val = "absent" then none else some val)
  else
    none

/-- The boot-policy map for both tags, as `collect_os` builds `osi.bp`. -/
def parseBP (bps : String) : BootPolicy :=
  { coih := parseBPTag "coih" bps, nsih := parseBPTag "nsih" bps }

/-- Python truthiness of `osi.bp.get("coih", None)`: the walrus guard takes
the branch only for a present key whose value is a non-empty string. -/
def coihTruthy : Option (Option String) → Option String
  | some (some s) => if s = "" then none else some s
  | _ => none

/-- The two candidate version plist names tried by `collect_os`, in
source order. -/
def svNames : List String :=
  ["SystemVersion.plist", "SystemVersion-disabled.plist"]

/-- Path of a candidate version plist under the System mount. -/
def svPath (sysMount name : String) : String :=
  pathJoin [sysMount, "System/Library/CoreServices", name]

/-- The version loop of `collect_os`: both candidate files are tried in
order with `FileNotFoundError` continuing the loop, and each successful
read overwrites `osi.version`. -/
def versionLoop (env : OSEnv) (sysMount : String) : Option String :=
  svNames.foldl
    (fun acc name =>
      match env.sysverFile (svPath sysMount name) with
      | some pv => some pv
      | none => acc)
    none

/-- The `##m1n1_ver##` marker. -/
def m1n1Marker : String := "##m1n1_ver##"

/-- A one-character string holding NUL, the terminator of the embedded
version value. -/
def nulStr : String := String.mk [Char.ofNat 0]

/-- `fuos.split(marker)[1].split(NUL)[0]`: the text between the first
marker occurrence and the following NUL (or next marker occurrence). -/
def m1n1Extract (fuos : String) : String :=
  (pySplit ((pySplit fuos m1n1Marker).getD 1 "") nulStr).headD ""

/-- The record assembled by `collect_os` before the boot-policy query. -/
def baseRecord (env : OSEnv) (partName : String) (vols : RoleVolumes)
    (vgid pbM recM sysM : String) : OSRec :=
  { partition := partName
    vgid := vgid
    label := vols.system.name
    sysVolume := vols.system.deviceIdentifier
    stub := !env.pathExists (pathJoin [sysM, "Library"])
    version := versionLoop env sysM
    m1n1Ver := none
    system := sysM
    data := (env.mount vols.data.deviceIdentifier).toOption
    preboot := pbM
    recovery := recM
    recVgid := vols.recovery.apfsVolumeUUID
    bp := none }

/-- The tail of `collect_os` after the three required mounts succeeded:
tries the Data mount (failure swallowed), fills the record, queries
`bputil` (failure returns the record without a boot-policy map), parses the
two boot-policy tags, and — when the `coih` value is truthy — builds the
custom kernelcache path (raising `KeyError` when the `nsih` key is absent
and `TypeError` when its value is `None`), reads it (`FileNotFoundError`
propagates), extracting the `##m1n1_ver##` marker value when present. -/
def collect_os_mounted (env : OSEnv) (partName : String) (vols : RoleVolumes)
    (vgid pbM recM sysM : String) : Except String OSRec :=
  let osi0 := baseRecord env partName vols vgid pbM recM sysM
  match env.bputil vgid with
  | Except.error _ => Except.ok osi0
  | Except.ok bps =>
    let bp := parseBP bps
    let osi1 := { osi0 with bp := some bp }
    match coihTruthy bp.coih with
    | none => Except.ok osi1
    | some coih =>
      match bp.nsih with
      | none => Except.error "KeyError: nsih"
      | some none => Except.error "TypeError: join() argument must be str, not NoneType"
      | some (some nsih) =>
        let fuosPath := pathJoin [pbM, vgid, "boot", nsih,
          "System/Library/Caches/com.apple.kernelcaches",
          "kernelcache.custom." ++ coih]
        match env.readFile fuosPath with
        | none => Except.error ("FileNotFoundError: " ++ fuosPath)
        | some fuos =>
          if (pySplit fuos m1n1Marker).length ≥ 2 then
            Except.ok { osi1 with m1n1Ver := some (m1n1Extract fuos) }
          else
            Except.ok osi1

/-- `OSEnum.collect_os`: mounts Preboot, Recovery and System in source
order — a failure of any of the three propagates — and hands over to
`collect_os_mounted` for the rest of the body. -/
def collect_os (env : OSEnv) (partName : String) (vols : RoleVolumes)
    (vgid : String) : Except String OSRec :=
  match env.mount vols.preboot.deviceIdentifier with
  | Except.error e => Except.error e
  | Except.ok pbM =>
    match env.mount vols.recovery.deviceIdentifier with
    | Except.error e => Except.error e
    | Except.ok recM =>
      match env.mount vols.system.deviceIdentifier with
      | Except.error e => Except.error e
      | Except.ok sysM => collect_os_mounted env partName vols vgid pbM recM sysM

/-- The `by_device` dict of `collect_part`; built by insertion so a
duplicated `DeviceIdentifier` keeps the last volume. -/
def byDevice (ct : Container) (d : String) : Option Volume :=
  (ct.volumes.filter (fun v => v.deviceIdentifier == d)).getLast?

/-- A default `Volume` used only under a proof that a filter is a
singleton. -/
def arbVolume : Volume := ⟨"", [], "", ""⟩

/-- The volume-group loop of `collect_part`: groups whose `Data` or
`System` member count differs from 1 are skipped; for the rest the member
volumes are looked up in `by_device` (a missing device id is a `KeyError`)
and `collect_os` resolves a record that is appended to `part.os`. -/
def collectGroups (env : OSEnv) (partName : String) (pb rec : Volume)
    (ct : Container) : Except String (List OSRec) :=
  ct.volumeGroups.foldlM
    (fun acc vg => do
      let data := vg.volumes.filter (fun m => m.role == "Data")
      let system := vg.volumes.filter (fun m => m.role == "System")
      if data.length ≠ 1 then pure acc
      else if system.length ≠ 1 then pure acc
      else do
        let dv ← exceptOfOption "KeyError"
          (byDevice ct (data.headD default).deviceIdentifier)
        let sv ← exceptOfOption "KeyError"
          (byDevice ct (system.headD default).deviceIdentifier)
        let osr ← collect_os env partName ⟨pb, rec, sv, dv⟩ vg.apfsVolumeGroupUUID
        pure (acc ++ [osr]))
    []

/-- `OSEnum.collect_part`.  The result pairs the partition's final OS list
with the Python return value: `none` models the bare `return` taken when
the container is absent or when the Preboot/Recovery counts are not exactly
one, and `some l` the `return part.os` of the full path. -/
def collect_part (env : OSEnv) (part : Partition) :
    Except String (List OSRec × Option (List OSRec)) :=
  match part.container with
  | none => Except.ok (part.os, none)
  | some ct =>
    let pbs := ct.volumes.filter (fun v => v.roles == ["Preboot"])
    let recs := ct.volumes.filter (fun v => v.roles == ["Recovery"])
    if pbs.length ≠ 1 then Except.ok ([], none)
    else if recs.length ≠ 1 then Except.ok ([], none)
    else
      match collectGroups env part.name (pbs.headD default)
          (recs.headD default) ct with
      | Except.error e => Except.error e
      | Except.ok osl => Except.ok (osl, some osl)

/-- `StubInstaller.check_volume`: runs `collect_part` on the target
partition and takes `len` of its return value — a `None` return is a
`TypeError`, a list of length other than one raises `Container is not
ready for OS install`, and the single record is stored as the install
target. -/
def check_volume (env : OSEnv) (part : Partition) : Except String OSRec :=
  match collect_part env part with
  | Except.error e => Except.error e
  | Except.ok (_, none) =>
    Except.error "TypeError: object of type NoneType has no len()"
  | Except.ok (_, some l) =>
    match l with
    | [r] => Except.ok r
    | _ => Except.error "Container is not ready for OS install"

/-! ## `StubInstaller.collect_firmware` (stub.py 253-266)

The body is a straight-line sequence with no `try`/`finally`: attach the
recovery image (`check=True`, so a failure raises), collect the WiFi
firmware, append the files to the package builder, detach.  The embedding
records which of the four steps executed and whether an exception
propagated out of the call. -/

/-- One step of `collect_firmware`'s body. -/
inductive FWEvent where
  | attach
  | collect
  | addFiles
  | detach
  deriving DecidableEq, Repr

/-- Outcomes of the three fallible steps of `collect_firmware`
(the final `hdiutil detach` is run without `check=True`). -/
structure FWEnv where
  attachOk : Bool
  collectOk : Bool
  addOk : Bool
  deriving DecidableEq, Repr

/-- `StubInstaller.collect_firmware`: the list of steps that ran, paired
with `true` when an exception propagated out of the call. -/
def collect_firmware (env : FWEnv) : List FWEvent × Bool :=
  if !env.attachOk then ([FWEvent.attach], true)
  else if !env.collectOk then ([FWEvent.attach, FWEvent.collect], true)
  else if !env.addOk then ([FWEvent.attach, FWEvent.collect, FWEvent.addFiles], true)
  else ([FWEvent.attach, FWEvent.collect, FWEvent.addFiles, FWEvent.detach], false)

/-! ## Concrete fixtures used by the witness and counterexample theorems -/

/-- An environment where every mount succeeds (mount path = device id),
the OS marker directory exists, no version plist exists, `bputil` fails,
and no file is readable. -/
def envW : OSEnv :=
  { mount := fun d => Except.ok d
    pathExists := fun _ => true
    sysverFile := fun _ => none
    bputil := fun _ => Except.error ()
    readFile := fun _ => none }

/-- A well-formed container: one volume per role and one volume group. -/
def ctW : Container :=
  { volumes :=
      [⟨"d1", ["Preboot"], "PB", "u1"⟩,
       ⟨"d2", ["Recovery"], "RC", "u2"⟩,
       ⟨"d3", ["System"], "Mac", "u3"⟩,
       ⟨"d4", ["Data"], "Mac - Data", "u4"⟩]
    volumeGroups := [⟨[⟨"Data", "d4"⟩, ⟨"System", "d3"⟩], "VG1"⟩] }

/-- A partition holding `ctW`. -/
def partW : Partition := ⟨"p", some ctW, []⟩

/-- The unique record `collect_part envW partW` resolves. -/
def rW : OSRec :=
  { partition := "p", vgid := "VG1", label := "Mac", sysVolume := "d3"
    stub := false, version := none, m1n1Ver := none, system := "d3"
    data := some "d4", preboot := "d1", recovery := "d2", recVgid := "u2"
    bp := none }

/-- A container with two `("Preboot",)` volumes (ambiguous topology). -/
def ctTwoPreboot : Container :=
  { volumes := [⟨"d1", ["Preboot"], "a", "x"⟩, ⟨"d5", ["Preboot"], "b", "y"⟩]
    volumeGroups := [] }

/-- A container with two `("Data",)` volumes. -/
def ctTwoData : Container :=
  { volumes := [⟨"d4", ["Data"], "a", "x"⟩, ⟨"d5", ["Data"], "b", "y"⟩]
    volumeGroups := [] }

/-- The role volumes handed to `collect_os` for `ctW`'s volume group. -/
def volsW : RoleVolumes :=
  ⟨⟨"d1", ["Preboot"], "PB", "u1"⟩, ⟨"d2", ["Recovery"], "RC", "u2"⟩,
   ⟨"d3", ["System"], "Mac", "u3"⟩, ⟨"d4", ["Data"], "Mac - Data", "u4"⟩⟩

/-- Like `envW` but `bputil` reports a coih and an nsih value. -/
def envCoih : OSEnv :=
  { envW with bputil := fun _ => Except.ok "(coih): AB\n(nsih): N1\n" }

/-- Like `envCoih` but every file read yields marker-free content. -/
def envCoihFile : OSEnv :=
  { envCoih with readFile := fun _ => some "hello" }

/-- Like `envW` but `bputil` reports only a coih value (no nsih tag). -/
def envNoNsih : OSEnv :=
  { envW with bputil := fun _ => Except.ok "(coih): AB\n" }

/-- Like `envW` but both candidate version plists exist, with different
`ProductVersion` values. -/
def envBothVers : OSEnv :=
  { envW with
    sysverFile := fun p =>
      if p = svPath "d3" "SystemVersion.plist" then some "13.5"
      else if p = svPath "d3" "SystemVersion-disabled.plist" then some "12.3"
      else none }

/-- The record `collect_os envBothVers` resolves for `volsW`. -/
def rBothVers : OSRec := { rW with version := some "12.3" }

/-- The device identity of the fixture system. -/
def siW : SysInfo := ⟨6, 33027, "j274ap"⟩

/-- A build identity matching `siW`. -/
def idW : BuildIdentity :=
  ⟨"0x06", "0x8103", "j274ap", "Erase", "macOS Customer", "22A1"⟩

/-- A second, distinct build identity that also matches `siW`. -/
def idW2 : BuildIdentity :=
  ⟨"0x06", "0x8103", "j274ap", "Erase", "macOS Customer", "22B5"⟩

/-- A build identity for a different device class (does not match `siW`). -/
def idOther : BuildIdentity :=
  ⟨"0x24", "0x8103", "j293ap", "Erase", "macOS Customer", "22A1"⟩

/-! ## Theorems -/

/-- C1 (counterexample): with two distinct build identities that both match
the device, `install_files` does not fault — it silently selects the first
match, contradicting the claim that more than one match faults. -/
theorem install_files_two_matches_no_fault :
    ([idW, idW2].countP (fun i => identityMatches siW i)) = 2 ∧
    idW ≠ idW2 ∧
    install_files_identity siW [idW, idW2] = some idW :=
  ⟨by decide, by decide, by decide⟩

/-- Helper: every key produced by `dictAppend` is the inserted key or an
existing one. -/
theorem dictAppend_keys (k : PyKey) (v : Volume) :
    ∀ (d : List (PyKey × List Volume)) kv, kv ∈ dictAppend d k v →
      kv.1 = k ∨ kv ∈ d := by
  intro d
  induction d with
  | nil =>
    intro kv h
    simp only [dictAppend, List.mem_singleton] at h
    left
    rw [h]
  | cons x xs ih =>
    intro kv h
    obtain ⟨k', vs⟩ := x
    simp only [dictAppend] at h
    by_cases he : k' = k
    · rw [if_pos he] at h
      rcases List.mem_cons.mp h with rfl | hm
      · left; exact he
      · right; exact List.mem_cons_of_mem _ hm
    · rw [if_neg he] at h
      rcases List.mem_cons.mp h with rfl | hm
      · right; exact List.mem_cons_self _ _
      · rcases ih kv hm with h1 | h1
        · left; exact h1
        · right; exact List.mem_cons_of_mem _ h1

/-- Helper: every key of the `by_role` dict is a role tuple, never a plain
string. -/
theorem buildByRole_keys (vols : List Volume) :
    ∀ kv ∈ buildByRole vols, ∃ t, kv.1 = PyKey.tup t := by
  suffices h : ∀ (d : List (PyKey × List Volume)),
      (∀ kv ∈ d, ∃ t, kv.1 = PyKey.tup t) →
      ∀ kv ∈ vols.foldl (fun d v => dictAppend d (PyKey.tup v.roles) v) d,
        ∃ t, kv.1 = PyKey.tup t by
    exact h [] (fun kv hkv => absurd hkv (List.not_mem_nil kv))
  induction vols with
  | nil => intro d hd kv hkv; exact hd kv hkv
  | cons v vs ih =>
    intro d hd kv hkv
    rw [List.foldl_cons] at hkv
    refine ih (dictAppend d (PyKey.tup v.roles) v) ?_ kv hkv
    intro kv' hkv'
    rcases dictAppend_keys _ _ _ kv' hkv' with h1 | h1
    · exact ⟨v.roles, h1⟩
    · exact hd kv' h1

/-- Helper: a plain-string lookup in the tuple-keyed `by_role` dict never
finds anything (Python `str` never equals `tuple`). -/
theorem dictGet_str_empty (vols : List Volume) (r : String) :
    dictGet (buildByRole vols) (PyKey.str r) = [] := by
  unfold dictGet
  have hn : (buildByRole vols).find? (fun kv => kv.1 == PyKey.str r) = none := by
    rw [List.find?_eq_none]
    intro kv hkv
    obtain ⟨t, ht⟩ := buildByRole_keys vols kv hkv
    rw [ht]
    simp
  rw [hn]

/-- The duplicate-role check of `prepare_volume` is dead code: whatever the
container holds, the string-keyed lookups see empty lists and the label
phase completes without fault. -/
theorem prepare_volume_dup_check_dead (partLabel : Option String)
    (ct : Container) :
    ∃ l, prepare_volume_label partLabel ct = Except.ok l := by
  unfold prepare_volume_label
  simp only [dictGet_str_empty, List.length_nil]
  norm_num
  split <;> exact ⟨_, rfl⟩

/-- C2 (code evaluated at the failing input): a container that already has
two `("Data",)`-roled volumes does not make `prepare_volume` fault — the
duplicate-role check looks the roles up with string keys in the
tuple-keyed `by_role` dict, so it never sees any volume. -/
theorem prepare_volume_two_data_no_fault :
    (ctTwoData.volumes.filter (fun v => v.roles == ["Data"])).length = 2 ∧
    prepare_volume_label (some "L") ctTwoData = Except.ok "L" :=
  ⟨by decide, rfl⟩

/-- C5 (counterexample): with the boot policy reporting coih `AB` and nsih
`N1` but the referenced `kernelcache.custom.AB` file absent, `collect_os`
faults with `FileNotFoundError` instead of returning the record with the
bootloader-version field unset. -/
theorem collect_os_missing_file_faults :
    collect_os envCoih "p" volsW "VG1" =
      Except.error "FileNotFoundError: d1/VG1/boot/N1/System/Library/Caches/com.apple.kernelcaches/kernelcache.custom.AB" :=
  rfl

/-- C6 (counterexample): when both `SystemVersion.plist` (13.5) and
`SystemVersion-disabled.plist` (12.3) exist, the resolved record's version
is 12.3 — the loop has no break, so the last existing file wins, not
`SystemVersion.plist` as claimed. -/
theorem collect_os_version_prefers_disabled :
    envBothVers.sysverFile (svPath "d3" "SystemVersion.plist") = some "13.5" ∧
    envBothVers.sysverFile (svPath "d3" "SystemVersion-disabled.plist") = some "12.3" ∧
    collect_os envBothVers "p" volsW "VG1" = Except.ok rBothVers ∧
    rBothVers.version = some "12.3" ∧
    (some "12.3" : Option String) ≠ some "13.5" :=
  ⟨rfl, rfl, rfl, rfl, by decide⟩

/-- C7 (counterexample): when the WiFi-firmware collection raises after a
successful attach, `collect_firmware` propagates the exception without ever
running the detach step — the attached image is leaked. -/
theorem collect_firmware_leak_on_raise :
    (collect_firmware ⟨true, false, true⟩).2 = true ∧
    FWEvent.attach ∈ (collect_firmware ⟨true, false, true⟩).1 ∧
    FWEvent.detach ∉ (collect_firmware ⟨true, false, true⟩).1 := by
  decide

/-- C7 (amended): the recovery image is detached exactly on the executions
in which no step of `collect_firmware` raises; on every path where
collection or appending raises, the detach is skipped. -/
theorem collect_firmware_detach_iff (env : FWEnv) :
    FWEvent.detach ∈ (collect_firmware env).1 ↔ (collect_firmware env).2 = false := by
  obtain ⟨a, c, d⟩ := env
  cases a <;> cases c <;> cases d <;> decide

/-- C7 (witness for the amended claim): on the all-success execution the
detach step runs. -/
theorem collect_firmware_detach_iff_witness :
    FWEvent.detach ∈ (collect_firmware ⟨true, true, true⟩).1 :=
  (collect_firmware_detach_iff ⟨true, true, true⟩).mpr rfl

/-- C8: the boot-policy text `blah (coih): absent\nfoo (nsih): XYZ\n`
parses to a map with the coih key present but unset (the literal `absent`
maps to `none`) and nsih equal to `XYZ`; and any tag whose marker substring
does not occur in the text is omitted from the map entirely. -/
theorem boot_policy_parse_scenario :
    parseBP "blah (coih): absent\nfoo (nsih): XYZ\n" =
      ⟨some none, some (some "XYZ")⟩ ∧
    (∀ k bps, (pySplit bps ("(" ++ k ++ "): ")).length < 2 →
      parseBPTag k bps = none) := by
  refine ⟨rfl, fun k bps h => ?_⟩
  simp only [parseBPTag]
  rw [if_neg (by omega)]

/-- C8 (witness for the omitted-tag clause): a text with no coih tag
yields no coih key. -/
theorem boot_policy_parse_scenario_witness :
    parseBPTag "coih" "hello" = none :=
  boot_policy_parse_scenario.2 "coih" "hello" (by decide)

/-- Helper: `List.find?` returns the unique element satisfying `p` when
exactly one element of the list does. -/
theorem find_of_unique_match {α : Type} (p : α → Bool) :
    ∀ (l : List α) (a : α), a ∈ l → p a = true → (l.filter p).length = 1 →
      l.find? p = some a := by
  intro l
  induction l with
  | nil => intro a h; cases h
  | cons x xs ih =>
    intro a hmem hpa hlen
    by_cases hx : p x = true
    · rw [List.find?_cons_of_pos _ hx]
      rw [List.filter_cons_of_pos hx, List.length_cons] at hlen
      have hnil : xs.filter p = [] := List.length_eq_zero.mp (by omega)
      rcases List.mem_cons.mp hmem with rfl | hmem'
      · rfl
      · exfalso
        have : a ∈ xs.filter p := List.mem_filter.mpr ⟨hmem', hpa⟩
        rw [hnil] at this
        cases this
    · have hxf : p x = false := Bool.not_eq_true _ ▸ (by simpa using hx)
      rcases List.mem_cons.mp hmem with rfl | hmem'
      · rw [hpa] at hxf; cases hxf
      · rw [List.find?_cons_of_neg _ (by simp [hxf])]
        rw [List.filter_cons_of_neg (by simp [hxf])] at hlen
        exact ih a hmem' hpa hlen

/-- C1 (amended): the build-identity selection of `install_files` faults
exactly when zero identities match the device's board id, chip id, device
class, RestoreBehavior `Erase` and Variant `macOS Customer`; any selected
identity matches; and when exactly one identity matches, the selection
succeeds with that unique match (several matches silently select the first
rather than faulting). -/
theorem install_files_identity_spec (si : SysInfo) (ids : List BuildIdentity) :
    (install_files_identity si ids = none ↔
      ∀ idt ∈ ids, identityMatches si idt = false)
    ∧ (∀ idt, install_files_identity si ids = some idt →
        identityMatches si idt = true)
    ∧ (∀ idt ∈ ids, identityMatches si idt = true →
        (ids.filter (fun i => identityMatches si i)).length = 1 →
        install_files_identity si ids = some idt) := by
  refine ⟨?_, ?_, ?_⟩
  · simp only [install_files_identity, List.find?_eq_none]
    constructor
    · intro h idt hm
      have := h idt hm
      simpa using this
    · intro h idt hm
      simp [h idt hm]
  · intro idt h
    exact List.find?_some h
  · intro idt hmem hmatch hlen
    exact find_of_unique_match _ ids idt hmem hmatch hlen

/-- C1 (witness for the amended claim): with one non-matching and one
matching identity, the unique match is selected. -/
theorem install_files_identity_spec_witness :
    install_files_identity siW [idOther, idW] = some idW :=
  (install_files_identity_spec siW [idOther, idW]).2.2 idW (by decide) (by decide)
    (by decide)

/-- C3: for every partition whose container has zero or more than one
volume with exact role set `("Preboot",)`, or zero or more than one with
exact role set `("Recovery",)`, `collect_part` leaves the partition with an
empty OS list, returns `None`, and raises no fault. -/
theorem collect_part_ambiguous_empty (env : OSEnv) (part : Partition)
    (ct : Container) (hc : part.container = some ct)
    (h : (ct.volumes.filter (fun v => v.roles == ["Preboot"])).length ≠ 1 ∨
         (ct.volumes.filter (fun v => v.roles == ["Recovery"])).length ≠ 1) :
    collect_part env part = Except.ok ([], none) := by
  simp only [collect_part, hc]
  rcases h with h | h
  · rw [if_pos h]
  · by_cases h1 : (ct.volumes.filter (fun v => v.roles == ["Preboot"])).length ≠ 1
    · rw [if_pos h1]
    · rw [if_neg h1, if_pos h]

/-- C3 (witness): a container with two Preboot volumes classifies to an
empty OS list without fault. -/
theorem collect_part_ambiguous_empty_witness :
    collect_part envW ⟨"p", some ctTwoPreboot, []⟩ = Except.ok ([], none) :=
  collect_part_ambiguous_empty envW _ ctTwoPreboot rfl (Or.inl (by decide))

/-- C4: `check_volume` succeeds exactly when the re-run classification of
the target partition resolves exactly one OS record (any fault of
`collect_part`, a `None` return, an empty list, or two or more records all
make it fault), and on success the returned install target is that single
resolved record. -/
theorem check_volume_exactly_one (env : OSEnv) (part : Partition) :
    ((∃ r, check_volume env part = Except.ok r) ↔
      (∃ a r, collect_part env part = Except.ok (a, some [r])))
    ∧ (∀ a l r, collect_part env part = Except.ok (a, some l) →
        check_volume env part = Except.ok r → l = [r]) := by
  cases h : collect_part env part with
  | error e =>
    refine ⟨⟨fun ⟨r, hr⟩ => ?_, fun ⟨a, r, hr⟩ => ?_⟩, fun a l r h1 h2 => ?_⟩
    · simp [check_volume, h] at hr
    · simp at hr
    · simp at h1
  | ok p =>
    obtain ⟨a0, o⟩ := p
    cases o with
    | none =>
      refine ⟨⟨fun ⟨r, hr⟩ => ?_, fun ⟨a, r, hr⟩ => ?_⟩, fun a l r h1 h2 => ?_⟩
      · simp [check_volume, h] at hr
      · simp at hr
      · simp at h1
    | some l =>
      match l with
      | [] =>
        refine ⟨⟨fun ⟨r, hr⟩ => ?_, fun ⟨a, r, hr⟩ => ?_⟩, fun a l' r h1 h2 => ?_⟩
        · simp [check_volume, h] at hr
        · simp at hr
        · simp [check_volume, h] at h2
      | [x] =>
        refine ⟨⟨fun _ => ⟨a0, x, rfl⟩, fun _ => ⟨x, by simp [check_volume, h]⟩⟩,
          fun a l' r h1 h2 => ?_⟩
        simp only [Except.ok.injEq, Prod.mk.injEq, Option.some.injEq] at h1
        obtain ⟨-, rfl⟩ := h1
        simp [check_volume, h] at h2
        subst h2
        rfl
      | x :: y :: t =>
        refine ⟨⟨fun ⟨r, hr⟩ => ?_, fun ⟨a, r, hr⟩ => ?_⟩, fun a l' r h1 h2 => ?_⟩
        · simp [check_volume, h] at hr
        · simp at hr
        · simp [check_volume, h] at h2

/-- C4 (witness): on the well-formed fixture container exactly one record
resolves and `check_volume` succeeds. -/
theorem check_volume_exactly_one_witness :
    ∃ r, check_volume envW partW = Except.ok r :=
  (check_volume_exactly_one envW partW).1.mpr ⟨[rW], rW, rfl⟩

/-- C9: when the boot-policy query succeeds and reports a truthy coih value
but the nsih key is absent from the parsed map or holds the unset value,
`collect_os` raises while constructing the kernelcache path instead of
returning the record with the bootloader-version field unset. -/
theorem collect_os_nsih_missing_faults
    (env : OSEnv) (partName : String) (vols : RoleVolumes) (vgid : String)
    (pbM recM sysM bps coih : String)
    (hpb : env.mount vols.preboot.deviceIdentifier = Except.ok pbM)
    (hrec : env.mount vols.recovery.deviceIdentifier = Except.ok recM)
    (hsys : env.mount vols.system.deviceIdentifier = Except.ok sysM)
    (hbp : env.bputil vgid = Except.ok bps)
    (hcoih : coihTruthy (parseBP bps).coih = some coih)
    (hnsih : (parseBP bps).nsih = none ∨ (parseBP bps).nsih = some none) :
    ∃ e, collect_os env partName vols vgid = Except.error e := by
  rcases hnsih with h | h <;>
    simp [collect_os, hpb, hrec, hsys, collect_os_mounted, hbp, hcoih, h]

/-- C9 (witness): boot-policy output with a coih tag and no nsih tag makes
`collect_os` fault. -/
theorem collect_os_nsih_missing_faults_witness :
    ∃ e, collect_os envNoNsih "p" volsW "VG1" = Except.error e :=
  collect_os_nsih_missing_faults envNoNsih "p" volsW "VG1" "d1" "d2" "d3"
    "(coih): AB\n" "AB" rfl rfl rfl rfl rfl (Or.inl rfl)

/-- C5 (amended): with a truthy coih and a usable nsih, an absent
`kernelcache.custom` file makes `collect_os` raise `FileNotFoundError`,
while a file that exists without the `##m1n1_ver##` marker is no fault and
leaves the bootloader-version field unset. -/
theorem collect_os_fuos_spec
    (env : OSEnv) (partName : String) (vols : RoleVolumes) (vgid : String)
    (pbM recM sysM bps coih nsih : String)
    (hpb : env.mount vols.preboot.deviceIdentifier = Except.ok pbM)
    (hrec : env.mount vols.recovery.deviceIdentifier = Except.ok recM)
    (hsys : env.mount vols.system.deviceIdentifier = Except.ok sysM)
    (hbp : env.bputil vgid = Except.ok bps)
    (hcoih : coihTruthy (parseBP bps).coih = some coih)
    (hnsih : (parseBP bps).nsih = some (some nsih)) :
    (env.readFile (pathJoin [pbM, vgid, "boot", nsih,
        "System/Library/Caches/com.apple.kernelcaches",
        "kernelcache.custom." ++ coih]) = none →
      ∃ e, collect_os env partName vols vgid = Except.error e)
    ∧ (∀ fuos,
        env.readFile (pathJoin [pbM, vgid, "boot", nsih,
          "System/Library/Caches/com.apple.kernelcaches",
          "kernelcache.custom." ++ coih]) = some fuos →
        (pySplit fuos m1n1Marker).length < 2 →
        ∃ r, collect_os env partName vols vgid = Except.ok r ∧
          r.m1n1Ver = none) := by
  constructor
  · intro hread
    simp [collect_os, hpb, hrec, hsys, collect_os_mounted, hbp, hcoih, hnsih, hread]
  · intro fuos hread hlen
    refine ⟨{ baseRecord env partName vols vgid pbM recM sysM with
              bp := some (parseBP bps) }, ?_, rfl⟩
    simp only [collect_os, hpb, hrec, hsys, collect_os_mounted, hbp, hcoih,
      hnsih, hread]
    rw [if_neg (by omega)]

/-- C5 (witness for the amended claim): a marker-free kernelcache file
yields a record with the bootloader-version field unset, without fault. -/
theorem collect_os_fuos_spec_witness :
    ∃ r, collect_os envCoihFile "p" volsW "VG1" = Except.ok r ∧
      r.m1n1Ver = none :=
  (collect_os_fuos_spec envCoihFile "p" volsW "VG1" "d1" "d2" "d3"
      "(coih): AB\n(nsih): N1\n" "AB" "N1" rfl rfl rfl rfl rfl rfl).2
    "hello" rfl (by decide)

/-- Helper: the imperative version loop is the "last existing candidate
wins" preference. -/
theorem versionLoop_eq (env : OSEnv) (m : String) :
    versionLoop env m =
      (match env.sysverFile (svPath m "SystemVersion-disabled.plist") with
       | some v => some v
       | none => env.sysverFile (svPath m "SystemVersion.plist")) := by
  simp only [versionLoop, svNames, List.foldl]
  cases env.sysverFile (svPath m "SystemVersion.plist") <;>
    cases env.sysverFile (svPath m "SystemVersion-disabled.plist") <;> rfl

/-- C6 (amended): every record `collect_os` resolves carries as its version
the `ProductVersion` of `SystemVersion-disabled.plist` when that file
exists, and of `SystemVersion.plist` otherwise — the loop prefers the LAST
existing candidate, and when neither exists the version stays unset with no
fault. -/
theorem collect_os_version_spec
    (env : OSEnv) (partName : String) (vols : RoleVolumes) (vgid : String)
    (sysM : String) (r : OSRec)
    (hsys : env.mount vols.system.deviceIdentifier = Except.ok sysM)
    (hr : collect_os env partName vols vgid = Except.ok r) :
    r.version =
      (match env.sysverFile (svPath sysM "SystemVersion-disabled.plist") with
       | some v => some v
       | none => env.sysverFile (svPath sysM "SystemVersion.plist")) := by
  rw [← versionLoop_eq]
  cases hpb : env.mount vols.preboot.deviceIdentifier with
  | error e => simp [collect_os, hpb] at hr
  | ok pbM =>
  cases hrec : env.mount vols.recovery.deviceIdentifier with
  | error e => simp [collect_os, hpb, hrec] at hr
  | ok recM =>
  cases hbp : env.bputil vgid with
  | error u =>
    simp only [collect_os, hpb, hrec, hsys, collect_os_mounted, hbp,
      Except.ok.injEq] at hr
    subst hr
    rfl
  | ok bps =>
  cases hct : coihTruthy (parseBP bps).coih with
  | none =>
    simp only [collect_os, hpb, hrec, hsys, collect_os_mounted, hbp, hct,
      Except.ok.injEq] at hr
    subst hr
    rfl
  | some coih =>
  cases hns : (parseBP bps).nsih with
  | none => simp [collect_os, hpb, hrec, hsys, collect_os_mounted, hbp, hct, hns] at hr
  | some o =>
  cases o with
  | none => simp [collect_os, hpb, hrec, hsys, collect_os_mounted, hbp, hct, hns] at hr
  | some nsih =>
  cases hread : env.readFile (pathJoin [pbM, vgid, "boot", nsih,
      "System/Library/Caches/com.apple.kernelcaches",
      "kernelcache.custom." ++ coih]) with
  | none => simp [collect_os, hpb, hrec, hsys, collect_os_mounted, hbp, hct, hns, hread] at hr
  | some fuos =>
    simp only [collect_os, hpb, hrec, hsys, collect_os_mounted, hbp, hct, hns,
      hread] at hr
    split at hr <;> simp only [Except.ok.injEq] at hr <;> subst hr <;> rfl

/-- C6 (witness for the amended claim): on the fixture where neither
candidate plist exists, the resolved record's version is unset. -/
theorem collect_os_version_spec_witness :
    rW.version =
      (match envW.sysverFile (svPath "d3" "SystemVersion-disabled.plist") with
       | some v => some v
       | none => envW.sysverFile (svPath "d3" "SystemVersion.plist")) :=
  collect_os_version_spec envW "p" volsW "VG1" "d3" rW rfl rfl

/-- C10: with a Data-role volume already present and the partition
labelled `Fedora`, `prepare_volume` derives the install label `Fedor`:
`rstrip(" - Data")` removes trailing characters from the SET
`' ', '-', 'D', 'a', 't'`, not the literal suffix (which `Fedora` does not
carry). -/
theorem stub_label_charset_strip :
    prepare_volume_label (some "Fedora") ctW = Except.ok "Fedor" ∧
    pyRstrip "Fedora" " - Data" = "Fedor" ∧
    "Fedor" ≠ "Fedora" :=
  ⟨rfl, rfl, by decide⟩

end AsahiInstaller
